import Mathlib

/-!
Verification of the role-based access-control (RBAC) pallet.

The pallet (src/src/lib.rs) keeps three storage items:

* `Assignments : StorageDoubleMap<AccountId, RoleId, bool, ValueQuery>` —
  modelled as a total function `AccountId → RoleId → Bool` (the `ValueQuery`
  default is `false`; `remove` is setting back to the default);
* `Roles : StorageMap<RoleId, RoleInfo>` — modelled as `RoleId → Option RoleInfo`;
* `IdGenerator : StorageValue<RoleId, ValueQuery>` — modelled as a `Nat`
  (the generic `RoleId : Incrementable` is modelled by `Nat` with successor
  as the increment and `0` as the default initial value).

Each operation is a function from the pre-state (plus its arguments) to a
triple `(result, post-state, deposited events)`.  The dispatchables error out
before any storage write, so on error the post-state is the pre-state
unchanged; `add_role` mutates `IdGenerator` before validating, so its error
branches still carry the incremented counter, exactly as in the source.
-/

namespace RBAC

/-- Account identifiers (`T::AccountId`), opaque to the pallet. -/
abbrev AccountId := Nat

/-- Role identifiers (`T::RoleId`), generic `Incrementable` modelled as `Nat`. -/
abbrev RoleId := Nat

/-- The two `Config` length bounds: `T::NameMaxLength` and `T::GrantersListMaxLength`. -/
structure Config where
  nameMaxLength : Nat
  grantersListMaxLength : Nat
deriving Repr, DecidableEq

/-- `RoleInfo { name : BoundedVec<u8, LN>, granters : BoundedVec<RoleId, LG> }`.
The bounded vectors are modelled as plain lists; the bounds are enforced where
the source enforces them, in `add_role`, via the `Config` limits. -/
structure RoleInfo where
  name : List Nat
  granters : List RoleId
deriving Repr, DecidableEq

/-- The pallet storage: the Assignment Ledger, the Role Directory and the
id allocator. -/
structure State where
  assignments : AccountId → RoleId → Bool
  roles : RoleId → Option RoleInfo
  idGenerator : RoleId

/-- Genesis storage: both maps empty, the allocator at its `Default` value. -/
def initialState : State where
  assignments := fun _ _ => false
  roles := fun _ => none
  idGenerator := 0

/-- The dispatch errors of `Error<T>`. -/
inductive Error where
  | NotAuthorized
  | RoleNotExist
deriving Repr, DecidableEq

/-- `InterfaceError` as used by `add_role` and `preassign_role` in lib.rs. -/
inductive InterfaceError where
  | NameTooLong (expected : Nat) (observed : Nat)
  | GrantersListTooLong (expected : Nat) (observed : Nat)
  | RoleNotExist
deriving Repr, DecidableEq

/-- The events of `Event<T>`. -/
inductive Event where
  | RoleCreated (id : RoleId) (info : RoleInfo)
  | RoleGranted (user : AccountId) (roleId : RoleId)
  | RoleRevoked (user : AccountId) (roleId : RoleId)
deriving Repr, DecidableEq

/-- Point update of the assignments double map.  `Assignments::set u r true`
is `setAssignment a u r true`; `Assignments::remove u r` is
`setAssignment a u r false` (removal restores the `ValueQuery` default). -/
def setAssignment (a : AccountId → RoleId → Bool) (user : AccountId) (rid : RoleId)
    (v : Bool) : AccountId → RoleId → Bool :=
  fun u r => if u = user ∧ r = rid then v else a u r

/-- `Pallet::authorize`: scan the role list and return `true` on the first
held role; `false` when the loop falls through.  A pure read: its type takes
the state and returns only a `Bool`, it can mutate nothing. -/
def authorize (s : State) (user : AccountId) (roles : List RoleId) : Bool :=
  match roles with
  | [] => false
  | role :: rest =>
    if s.assignments user role then true
    else authorize s user rest

/-- Dispatchable `grant_role` (after `ensure_signed` has produced `who`). -/
def grant_role (s : State) (who user : AccountId) (role_id : RoleId) :
    Except Error Unit × State × List Event :=
  match s.roles role_id with
  | none => (Except.error Error.RoleNotExist, s, [])
  | some role =>
    if !authorize s who role.granters then
      (Except.error Error.NotAuthorized, s, [])
    else
      (Except.ok (),
       { s with assignments := setAssignment s.assignments user role_id true },
       [Event.RoleGranted user role_id])

/-- Dispatchable `revoke_role` (after `ensure_signed` has produced `who`). -/
def revoke_role (s : State) (who user : AccountId) (role_id : RoleId) :
    Except Error Unit × State × List Event :=
  match s.roles role_id with
  | none => (Except.error Error.RoleNotExist, s, [])
  | some role =>
    if !authorize s who role.granters then
      (Except.error Error.NotAuthorized, s, [])
    else
      (Except.ok (),
       { s with assignments := setAssignment s.assignments user role_id false },
       [Event.RoleRevoked user role_id])

/-- `Pallet::add_role`: first mutate `IdGenerator` to the next id, then build
the final granter list (appending the new id when `can_assign_itself`), then
validate the name bound, then the granters bound — a `BoundedVec` `try_into`
fails exactly when the length exceeds the bound — and finally store the role
under the new id and deposit `RoleCreated`. -/
def add_role (cfg : Config) (s : State) (name : List Nat) (granters : List RoleId)
    (can_assign_itself : Bool) : Except InterfaceError RoleId × State × List Event :=
  let next_id := s.idGenerator + 1
  let s1 : State := { s with idGenerator := next_id }
  let granters1 := if can_assign_itself then granters ++ [next_id] else granters
  if cfg.nameMaxLength < name.length then
    (Except.error (InterfaceError.NameTooLong cfg.nameMaxLength name.length), s1, [])
  else if cfg.grantersListMaxLength < granters1.length then
    (Except.error (InterfaceError.GrantersListTooLong cfg.grantersListMaxLength
       granters1.length), s1, [])
  else
    (Except.ok next_id,
     { s1 with roles := fun r =>
         if r = next_id then some { name := name, granters := granters1 } else s1.roles r },
     [Event.RoleCreated next_id { name := name, granters := granters1 }])

/-- `Pallet::preassign_role`: no authorization check; only requires the role
to exist in the directory. -/
def preassign_role (s : State) (user : AccountId) (role : RoleId) :
    Except InterfaceError Unit × State × List Event :=
  if (s.roles role).isSome then
    (Except.ok (),
     { s with assignments := setAssignment s.assignments user role true }, [])
  else
    (Except.error InterfaceError.RoleNotExist, s, [])

/-- The short-circuiting loop of `authorize` computes `List.any` of the
per-role ledger reads. -/
theorem authorize_eq_any (s : State) (u : AccountId) (rs : List RoleId) :
    authorize s u rs = rs.any (fun r => s.assignments u r) := by
  induction rs with
  | nil => rfl
  | cons a l ih =>
    rw [authorize, ih, List.any_cons]
    cases s.assignments u a <;> simp

/-- Claim C3: `authorize` returns true iff the assignment is held for at least
one listed role; on the empty list it is false.  `authorize` returns only a
`Bool`, so by its very type it mutates no state. -/
theorem authorize_spec (s : State) (u : AccountId) (rs : List RoleId) :
    (authorize s u rs = true ↔ ∃ r ∈ rs, s.assignments u r = true)
    ∧ authorize s u [] = false := by
  refine ⟨?_, rfl⟩
  rw [authorize_eq_any, List.any_eq_true]

/-- A concrete storage used to exercise the theorems: role 1 exists with
granter list `[1]`, account 1 holds role 1, the allocator stands at 1. -/
def exState : State where
  assignments := fun u r => if u = 1 ∧ r = 1 then true else false
  roles := fun r => if r = 1 then some { name := [97], granters := [1] } else none
  idGenerator := 1

/-- Claim C1: `grant_role` fails with `RoleNotExist` when the role id is
absent; when the role exists it fails with `NotAuthorized` exactly when
`authorize caller role.granters` is false; and when authorized it succeeds,
sets the (user, role) assignment to held and deposits `RoleGranted`. -/
theorem grant_role_cases (s : State) (who user : AccountId) (rid : RoleId) :
    (s.roles rid = none →
       grant_role s who user rid = (Except.error Error.RoleNotExist, s, []))
    ∧ (∀ role, s.roles rid = some role →
        ((grant_role s who user rid = (Except.error Error.NotAuthorized, s, [])
            ↔ authorize s who role.granters = false)
         ∧ (authorize s who role.granters = true →
             grant_role s who user rid =
               (Except.ok (),
                { s with assignments := setAssignment s.assignments user rid true },
                [Event.RoleGranted user rid])))) := by
  constructor
  · intro h
    simp [grant_role, h]
  · intro role h
    refine ⟨⟨fun hg => ?_, fun ha => by simp [grant_role, h, ha]⟩,
            fun ha => by simp [grant_role, h, ha]⟩
    cases ha : authorize s who role.granters with
    | false => rfl
    | true => simp [grant_role, h, ha] at hg

/-- Witness for C1: in `exState`, account 1 (holder of granter role 1) grants
role 1 to account 2, which succeeds, records the assignment and deposits the
event. -/
theorem grant_role_cases_witness :
    grant_role exState 1 2 1 =
      (Except.ok (),
       { exState with assignments := setAssignment exState.assignments 2 1 true },
       [Event.RoleGranted 2 1]) :=
  ((grant_role_cases exState 1 2 1).2 { name := [97], granters := [1] } rfl).2 rfl

/-- Claim C2: `revoke_role` applies the same gating as `grant_role` and on
success clears the (user, role) assignment and deposits `RoleRevoked`. -/
theorem revoke_role_cases (s : State) (who user : AccountId) (rid : RoleId) :
    (s.roles rid = none →
       revoke_role s who user rid = (Except.error Error.RoleNotExist, s, []))
    ∧ (∀ role, s.roles rid = some role →
        ((revoke_role s who user rid = (Except.error Error.NotAuthorized, s, [])
            ↔ authorize s who role.granters = false)
         ∧ (authorize s who role.granters = true →
             revoke_role s who user rid =
               (Except.ok (),
                { s with assignments := setAssignment s.assignments user rid false },
                [Event.RoleRevoked user rid])))) := by
  constructor
  · intro h
    simp [revoke_role, h]
  · intro role h
    refine ⟨⟨fun hg => ?_, fun ha => by simp [revoke_role, h, ha]⟩,
            fun ha => by simp [revoke_role, h, ha]⟩
    cases ha : authorize s who role.granters with
    | false => rfl
    | true => simp [revoke_role, h, ha] at hg

/-- Witness for C2: in `exState`, account 1 revokes role 1 from account 2;
the call succeeds, clears the assignment and deposits the event. -/
theorem revoke_role_cases_witness :
    revoke_role exState 1 2 1 =
      (Except.ok (),
       { exState with assignments := setAssignment exState.assignments 2 1 false },
       [Event.RoleRevoked 2 1]) :=
  ((revoke_role_cases exState 1 2 1).2 { name := [97], granters := [1] } rfl).2 rfl

/-- Concrete configuration for the witnesses: names of at most 4 bytes,
granter lists of at most 2 entries. -/
def exCfg : Config where
  nameMaxLength := 4
  grantersListMaxLength := 2

/-- Claim C4: `add_role` fails with `NameTooLong` when the name exceeds the
bound, fails with `GrantersListTooLong` when the name fits but the final
granter list (after the optional self-append) exceeds its bound, and
otherwise succeeds, stores the role under the newly allocated id and returns
that id.  (The name check runs first, mirroring the field order of the
`RoleInfo` construction in the source.) -/
theorem add_role_spec (cfg : Config) (s : State) (name : List Nat)
    (granters : List RoleId) (can : Bool) :
    (cfg.nameMaxLength < name.length →
       add_role cfg s name granters can =
         (Except.error (InterfaceError.NameTooLong cfg.nameMaxLength name.length),
          { s with idGenerator := s.idGenerator + 1 }, []))
    ∧ (name.length ≤ cfg.nameMaxLength →
       cfg.grantersListMaxLength <
           (if can then granters ++ [s.idGenerator + 1] else granters).length →
       add_role cfg s name granters can =
         (Except.error (InterfaceError.GrantersListTooLong cfg.grantersListMaxLength
            (if can then granters ++ [s.idGenerator + 1] else granters).length),
          { s with idGenerator := s.idGenerator + 1 }, []))
    ∧ (name.length ≤ cfg.nameMaxLength →
       (if can then granters ++ [s.idGenerator + 1] else granters).length ≤
           cfg.grantersListMaxLength →
       (add_role cfg s name granters can).1 = Except.ok (s.idGenerator + 1)
       ∧ (add_role cfg s name granters can).2.1.roles (s.idGenerator + 1) =
           some { name := name,
                  granters := if can then granters ++ [s.idGenerator + 1] else granters }) := by
  refine ⟨fun h1 => ?_, fun h1 h2 => ?_, fun h1 h2 => ?_⟩
  · simp [add_role, h1]
  · simp [add_role, Nat.not_lt.mpr h1, h2]
  · simp [add_role, Nat.not_lt.mpr h1, Nat.not_lt.mpr h2]

/-- Witness for C4: under `exCfg`, a 5-byte name is rejected with
`NameTooLong 4 5`, while a 1-byte name with no granters is accepted, stored
under id 1 and id 1 is returned. -/
theorem add_role_spec_witness :
    add_role exCfg initialState [1, 2, 3, 4, 5] [] false =
      (Except.error (InterfaceError.NameTooLong 4 5),
       { initialState with idGenerator := 1 }, [])
    ∧ (add_role exCfg initialState [97] [] false).1 = Except.ok 1
    ∧ (add_role exCfg initialState [97] [] false).2.1.roles 1 =
        some { name := [97], granters := [] } :=
  ⟨(add_role_spec exCfg initialState [1, 2, 3, 4, 5] [] false).1 (by decide),
   ((add_role_spec exCfg initialState [97] [] false).2.2 (by decide) (by decide)).1,
   ((add_role_spec exCfg initialState [97] [] false).2.2 (by decide) (by decide)).2⟩

/-- Claim C6: a successful `add_role` with `can_assign_itself = true` stores
the supplied granters with the newly allocated id appended at the end; with
empty supplied granters the stored granter set is exactly the role's own id. -/
theorem add_role_self_append (cfg : Config) (s : State) (name : List Nat)
    (granters : List RoleId) :
    ∀ id, (add_role cfg s name granters true).1 = Except.ok id →
      (add_role cfg s name granters true).2.1.roles id =
        some { name := name, granters := granters ++ [id] } := by
  intro id h
  by_cases h1 : cfg.nameMaxLength < name.length
  · simp [add_role, h1] at h
  · by_cases h2 : cfg.grantersListMaxLength < granters.length + 1
    · simp [add_role, h1, h2] at h
    · have hid : id = s.idGenerator + 1 := by
        simp [add_role, h1, h2] at h
        exact h.symm
      subst hid
      simp [add_role, h1, h2]

/-- Witness for C6: creating a role with empty granters and self-grant from
the genesis state stores granter set `[1]` for the new role id 1. -/
theorem add_role_self_append_witness :
    (add_role exCfg initialState [97] [] true).2.1.roles 1 =
      some { name := [97], granters := [1] } :=
  add_role_self_append exCfg initialState [97] [] 1 rfl

/-- Claim C10: `add_role` never checks that the supplied granter ids exist in
the Role Directory: whenever the two length bounds hold it succeeds and
stores the granter list verbatim (after the optional self-append), and its
only failure cases are `NameTooLong` and `GrantersListTooLong`. -/
theorem add_role_no_granter_check (cfg : Config) (s : State) (name : List Nat)
    (granters : List RoleId) (can : Bool) :
    (name.length ≤ cfg.nameMaxLength →
       (if can then granters ++ [s.idGenerator + 1] else granters).length ≤
           cfg.grantersListMaxLength →
       (add_role cfg s name granters can).1 = Except.ok (s.idGenerator + 1)
       ∧ (add_role cfg s name granters can).2.1.roles (s.idGenerator + 1) =
           some { name := name,
                  granters := if can then granters ++ [s.idGenerator + 1] else granters })
    ∧ (∀ e, (add_role cfg s name granters can).1 = Except.error e →
        e = InterfaceError.NameTooLong cfg.nameMaxLength name.length
        ∨ e = InterfaceError.GrantersListTooLong cfg.grantersListMaxLength
            (if can then granters ++ [s.idGenerator + 1] else granters).length) := by
  constructor
  · intro h1 h2
    simp [add_role, Nat.not_lt.mpr h1, Nat.not_lt.mpr h2]
  · intro e h
    by_cases h1 : cfg.nameMaxLength < name.length
    · simp [add_role, h1] at h
      exact Or.inl h.symm
    · by_cases h2 : cfg.grantersListMaxLength <
          (if can then granters ++ [s.idGenerator + 1] else granters).length
      · simp [add_role, h1, h2] at h
        exact Or.inr h.symm
      · simp [add_role, h1, h2] at h

/-- Witness for C10: role id 99 does not exist in the genesis directory, yet
creating a role with granter list `[99]` succeeds and stores `[99]` verbatim. -/
theorem add_role_no_granter_check_witness :
    initialState.roles 99 = none
    ∧ (add_role exCfg initialState [97] [99] false).1 = Except.ok 1
    ∧ (add_role exCfg initialState [97] [99] false).2.1.roles 1 =
        some { name := [97], granters := [99] } :=
  ⟨rfl,
   ((add_role_no_granter_check exCfg initialState [97] [99] false).1
      (by decide) (by decide)).1,
   ((add_role_no_granter_check exCfg initialState [97] [99] false).1
      (by decide) (by decide)).2⟩

/-- Claim C5: a failed `grant_role`, `revoke_role` or `preassign_role` leaves
the whole state exactly as before the call, and a failed `add_role` leaves
the Role Directory and the Assignment Ledger unchanged but has still advanced
the id allocator by one. -/
theorem failed_calls_commit_nothing (cfg : Config) (s : State) :
    (∀ who user rid e, (grant_role s who user rid).1 = Except.error e →
       (grant_role s who user rid).2.1 = s)
    ∧ (∀ who user rid e, (revoke_role s who user rid).1 = Except.error e →
       (revoke_role s who user rid).2.1 = s)
    ∧ (∀ user rid e, (preassign_role s user rid).1 = Except.error e →
       (preassign_role s user rid).2.1 = s)
    ∧ (∀ name granters can e, (add_role cfg s name granters can).1 = Except.error e →
       (add_role cfg s name granters can).2.1.roles = s.roles
       ∧ (add_role cfg s name granters can).2.1.assignments = s.assignments
       ∧ (add_role cfg s name granters can).2.1.idGenerator = s.idGenerator + 1) := by
  refine ⟨fun who user rid e h => ?_, fun who user rid e h => ?_,
          fun user rid e h => ?_, fun name granters can e h => ?_⟩
  · cases hr : s.roles rid with
    | none => simp [grant_role, hr]
    | some role =>
      cases ha : authorize s who role.granters with
      | false => simp [grant_role, hr, ha]
      | true => simp [grant_role, hr, ha] at h
  · cases hr : s.roles rid with
    | none => simp [revoke_role, hr]
    | some role =>
      cases ha : authorize s who role.granters with
      | false => simp [revoke_role, hr, ha]
      | true => simp [revoke_role, hr, ha] at h
  · by_cases hr : (s.roles rid).isSome
    · simp [preassign_role, hr] at h
    · simp [preassign_role, hr]
  · by_cases h1 : cfg.nameMaxLength < name.length
    · simp [add_role, h1]
    · by_cases h2 : cfg.grantersListMaxLength <
          (if can then granters ++ [s.idGenerator + 1] else granters).length
      · simp [add_role, h1, h2]
      · simp [add_role, h1, h2] at h

/-- Witness for C5: granting the nonexistent role 5 in `exState` fails and
leaves the state untouched; creating a role with a 5-byte name fails but
leaves the directory and ledger of the genesis state unchanged while burning
id 1. -/
theorem failed_calls_commit_nothing_witness :
    (grant_role exState 1 2 5).2.1 = exState
    ∧ (add_role exCfg initialState [1, 2, 3, 4, 5] [] false).2.1.roles =
        initialState.roles
    ∧ (add_role exCfg initialState [1, 2, 3, 4, 5] [] false).2.1.assignments =
        initialState.assignments
    ∧ (add_role exCfg initialState [1, 2, 3, 4, 5] [] false).2.1.idGenerator =
        initialState.idGenerator + 1 :=
  ⟨(failed_calls_commit_nothing exCfg exState).1 1 2 5 Error.RoleNotExist rfl,
   (failed_calls_commit_nothing exCfg initialState).2.2.2 [1, 2, 3, 4, 5] [] false
     (InterfaceError.NameTooLong 4 5) rfl⟩

/-- Overwriting an assignment entry with the value it already carries is the
identity on the ledger. -/
theorem setAssignment_self (a : AccountId → RoleId → Bool) (user : AccountId)
    (rid : RoleId) :
    setAssignment a user rid (a user rid) = a := by
  funext u r
  unfold setAssignment
  split
  · next h => rw [h.1, h.2]
  · rfl

/-- Claim C8: under the gating a successful call requires (role present,
caller authorized), granting a pair that is already held, or revoking a pair
that is already not held, still returns success and leaves the Assignment
Ledger unchanged. -/
theorem grant_revoke_idempotent (s : State) (who user : AccountId) (rid : RoleId) :
    (∀ role, s.roles rid = some role → authorize s who role.granters = true →
       s.assignments user rid = true →
       (grant_role s who user rid).1 = Except.ok ()
       ∧ (grant_role s who user rid).2.1.assignments = s.assignments)
    ∧ (∀ role, s.roles rid = some role → authorize s who role.granters = true →
       s.assignments user rid = false →
       (revoke_role s who user rid).1 = Except.ok ()
       ∧ (revoke_role s who user rid).2.1.assignments = s.assignments) := by
  constructor
  · intro role hr ha hheld
    refine ⟨by simp [grant_role, hr, ha], ?_⟩
    simp only [grant_role, hr, ha, Bool.not_true, Bool.false_eq_true, if_false]
    rw [← hheld]
    exact setAssignment_self s.assignments user rid
  · intro role hr ha hheld
    refine ⟨by simp [revoke_role, hr, ha], ?_⟩
    simp only [revoke_role, hr, ha, Bool.not_true, Bool.false_eq_true, if_false]
    rw [← hheld]
    exact setAssignment_self s.assignments user rid

/-- Witness for C8: in `exState`, account 1 already holds role 1; granting it
again leaves the ledger intact.  Account 2 does not hold role 1; revoking it
leaves the ledger intact as well. -/
theorem grant_revoke_idempotent_witness :
    ((grant_role exState 1 1 1).1 = Except.ok ()
     ∧ (grant_role exState 1 1 1).2.1.assignments = exState.assignments)
    ∧ (revoke_role exState 1 2 1).1 = Except.ok ()
    ∧ (revoke_role exState 1 2 1).2.1.assignments = exState.assignments :=
  ⟨(grant_revoke_idempotent exState 1 1 1).1 { name := [97], granters := [1] } rfl rfl rfl,
   (grant_revoke_idempotent exState 1 2 1).2 { name := [97], granters := [1] } rfl rfl rfl⟩

/-- Claim C9: `preassign_role` performs no authorization check (it takes no
caller at all): it fails with `RoleNotExist` exactly when the role id is
absent from the directory, and otherwise sets the (user, role) assignment to
held. -/
theorem preassign_role_props (s : State) (user : AccountId) (rid : RoleId) :
    (s.roles rid = none ↔
       preassign_role s user rid = (Except.error InterfaceError.RoleNotExist, s, []))
    ∧ (∀ info, s.roles rid = some info →
        preassign_role s user rid =
          (Except.ok (),
           { s with assignments := setAssignment s.assignments user rid true }, [])) := by
  refine ⟨⟨fun h => ?_, fun h => ?_⟩, fun info h => ?_⟩
  · simp [preassign_role, h]
  · cases hr : s.roles rid with
    | none => rfl
    | some info => simp [preassign_role, hr] at h
  · simp [preassign_role, h]

/-- Witness for C9: preassigning existing role 1 to account 2 succeeds and
records the assignment; preassigning absent role 5 fails with `RoleNotExist`
and changes nothing. -/
theorem preassign_role_props_witness :
    preassign_role exState 2 1 =
      (Except.ok (),
       { exState with assignments := setAssignment exState.assignments 2 1 true }, [])
    ∧ preassign_role exState 2 5 =
      (Except.error InterfaceError.RoleNotExist, exState, []) :=
  ⟨(preassign_role_props exState 2 1).2 { name := [97], granters := [1] } rfl,
   (preassign_role_props exState 2 5).1.mp rfl⟩

/-- Argument triple of one `add_role` call. -/
structure AddCall where
  name : List Nat
  granters : List RoleId
  can_assign_itself : Bool

/-- Run a list of `add_role` calls in order, threading the state; returns the
per-call results in issuance order together with the final state. -/
def runAdds (cfg : Config) (s : State) :
    List AddCall → List (Except InterfaceError RoleId) × State
  | [] => ([], s)
  | c :: cs =>
    ((add_role cfg s c.name c.granters c.can_assign_itself).1 ::
       (runAdds cfg (add_role cfg s c.name c.granters c.can_assign_itself).2.1 cs).1,
     (runAdds cfg (add_role cfg s c.name c.granters c.can_assign_itself).2.1 cs).2)

/-- The role ids returned by the successful calls, in issuance order. -/
def okIds : List (Except InterfaceError RoleId) → List RoleId
  | [] => []
  | Except.ok id :: rest => id :: okIds rest
  | Except.error _ :: rest => okIds rest

/-- `add_role` advances the allocator by exactly one, on success and on
failure alike. -/
theorem add_role_idGenerator (cfg : Config) (s : State) (name : List Nat)
    (granters : List RoleId) (can : Bool) :
    (add_role cfg s name granters can).2.1.idGenerator = s.idGenerator + 1 := by
  by_cases h1 : cfg.nameMaxLength < name.length
  · simp [add_role, h1]
  · by_cases h2 : cfg.grantersListMaxLength <
        (if can then granters ++ [s.idGenerator + 1] else granters).length
    · simp [add_role, h1, h2]
    · simp [add_role, h1, h2]

/-- A successful `add_role` returns exactly the successor of the pre-call
allocator value. -/
theorem add_role_ok_id (cfg : Config) (s : State) (name : List Nat)
    (granters : List RoleId) (can : Bool) (id : RoleId) :
    (add_role cfg s name granters can).1 = Except.ok id → id = s.idGenerator + 1 := by
  intro h
  by_cases h1 : cfg.nameMaxLength < name.length
  · simp [add_role, h1] at h
  · by_cases h2 : cfg.grantersListMaxLength <
        (if can then granters ++ [s.idGenerator + 1] else granters).length
    · simp [add_role, h1, h2] at h
    · simp [add_role, h1, h2] at h
      exact h.symm

/-- `grant_role` never touches the allocator. -/
theorem grant_role_idGenerator (s : State) (who user : AccountId) (rid : RoleId) :
    (grant_role s who user rid).2.1.idGenerator = s.idGenerator := by
  cases hr : s.roles rid with
  | none => simp [grant_role, hr]
  | some role =>
    cases ha : authorize s who role.granters with
    | false => simp [grant_role, hr, ha]
    | true => simp [grant_role, hr, ha]

/-- `revoke_role` never touches the allocator. -/
theorem revoke_role_idGenerator (s : State) (who user : AccountId) (rid : RoleId) :
    (revoke_role s who user rid).2.1.idGenerator = s.idGenerator := by
  cases hr : s.roles rid with
  | none => simp [revoke_role, hr]
  | some role =>
    cases ha : authorize s who role.granters with
    | false => simp [revoke_role, hr, ha]
    | true => simp [revoke_role, hr, ha]

/-- `preassign_role` never touches the allocator. -/
theorem preassign_role_idGenerator (s : State) (user : AccountId) (rid : RoleId) :
    (preassign_role s user rid).2.1.idGenerator = s.idGenerator := by
  by_cases hr : (s.roles rid).isSome
  · simp [preassign_role, hr]
  · simp [preassign_role, hr]

/-- Along any sequence of `add_role` calls, the successful ids are sorted in
strictly increasing issuance order and all exceed the starting allocator
value. -/
theorem runAdds_okIds_bound (cfg : Config) :
    ∀ (calls : List AddCall) (s : State),
      List.Pairwise (fun a b => a < b) (okIds (runAdds cfg s calls).1)
      ∧ ∀ x ∈ okIds (runAdds cfg s calls).1, s.idGenerator < x := by
  intro calls
  induction calls with
  | nil =>
    intro s
    refine ⟨List.Pairwise.nil, fun x hx => ?_⟩
    simp [runAdds, okIds] at hx
  | cons c cs ih =>
    intro s
    obtain ⟨ihp, ihb⟩ := ih (add_role cfg s c.name c.granters c.can_assign_itself).2.1
    rw [add_role_idGenerator] at ihb
    cases hr : (add_role cfg s c.name c.granters c.can_assign_itself).1 with
    | error e =>
      constructor
      · simpa only [runAdds, hr, okIds] using ihp
      · intro x hx
        simp only [runAdds, hr, okIds] at hx
        exact Nat.lt_of_succ_lt (ihb x hx)
    | ok id =>
      have hid := add_role_ok_id cfg s c.name c.granters c.can_assign_itself id hr
      constructor
      · simp only [runAdds, hr, okIds, List.pairwise_cons]
        exact ⟨fun b hb => hid ▸ ihb b hb, ihp⟩
      · intro x hx
        simp only [runAdds, hr, okIds, List.mem_cons] at hx
        cases hx with
        | inl hx => rw [hx, hid]; exact Nat.lt_succ_self _
        | inr hx => exact Nat.lt_of_succ_lt (ihb x hx)

/-- Claim C7: from the genesis state, the ids returned by the successful
`add_role` calls of any call sequence are strictly increasing in issuance
order (hence pairwise distinct), and no operation of the pallet ever
decreases the stored allocator value. -/
theorem role_ids_strictly_increasing (cfg : Config) (calls : List AddCall) :
    List.Pairwise (fun a b => a < b) (okIds (runAdds cfg initialState calls).1)
    ∧ List.Pairwise (fun a b => a ≠ b) (okIds (runAdds cfg initialState calls).1)
    ∧ (∀ s who user rid, s.idGenerator ≤ (grant_role s who user rid).2.1.idGenerator)
    ∧ (∀ s who user rid, s.idGenerator ≤ (revoke_role s who user rid).2.1.idGenerator)
    ∧ (∀ s user rid, s.idGenerator ≤ (preassign_role s user rid).2.1.idGenerator)
    ∧ (∀ s name granters can,
        s.idGenerator ≤ (add_role cfg s name granters can).2.1.idGenerator) := by
  refine ⟨(runAdds_okIds_bound cfg calls initialState).1,
          List.Pairwise.imp (fun h => Nat.ne_of_lt h)
            (runAdds_okIds_bound cfg calls initialState).1,
          fun s who user rid => Nat.le_of_eq (grant_role_idGenerator s who user rid).symm,
          fun s who user rid => Nat.le_of_eq (revoke_role_idGenerator s who user rid).symm,
          fun s user rid => Nat.le_of_eq (preassign_role_idGenerator s user rid).symm,
          fun s name granters can => ?_⟩
  rw [add_role_idGenerator]
  exact Nat.le_succ _

end RBAC
